import Mathlib

/-!
Verification development for `src/python/ssh_password_check.py`.

The script reads candidate hostnames from a file, normalizes and
deduplicates them, probes each one once over SSH with a fixed credential
(`test_login`), classifies the outcome as a report string, and maintains a
consecutive-failure counter intended to trigger a 30-second cool-down.

We model strings as `List Char` (Python `str`), the probe's interaction
with the network as an oracle `probe : List Char → ProbeOutcome`, and the
module-level run loop as a fold over the input lines carrying the mutable
state (`seen`, `failed`, emitted output, sleeps performed).
-/

namespace SshPasswordCheck

/-- Python `str.strip()` whitespace characters (ASCII fragment). -/
def isPySpace (c : Char) : Bool :=
  c == ' ' || c == '\t' || c == '\n' || c == '\r' ||
  c == Char.ofNat 11 || c == Char.ofNat 12

/-- Python `line.strip()`: drop whitespace from both ends. -/
def strip (s : List Char) : List Char :=
  ((s.dropWhile isPySpace).reverse.dropWhile isPySpace).reverse

/-- Python `s.replace(Char.ofNat 34, "")`: removes every double-quote character. -/
def removeQuotes (s : List Char) : List Char :=
  s.filter (fun c => c != '"')

/-- Line 33 of the source: `hname = line.strip().replace(quote, "")`. -/
def normalize (line : List Char) : List Char :=
  removeQuotes (strip line)

/-- `isPrefixL pat s`: does `pat` occur at the start of `s`? -/
def isPrefixL : List Char → List Char → Bool
  | [], _ => true
  | _ :: _, [] => false
  | a :: as, b :: bs => a == b && isPrefixL as bs

/-- Python's substring test `pat in s`: does `pat` occur contiguously in `s`? -/
def containsSub (pat : List Char) : List Char → Bool
  | [] => isPrefixL pat []
  | c :: cs => isPrefixL pat (c :: cs) || containsSub pat cs

/-- The classification `test_login` makes of one probe (spec's `ProbeResult`). -/
inductive ProbeOutcome where
  | success
  | authFailure
  | connectionError (msg : List Char)
deriving DecidableEq

/-- The report text returned by `test_login` for each classified outcome
(source lines 17, 20, 23). -/
def resultString : ProbeOutcome → List Char
  | .success => "True".data
  | .authFailure => "False, Bad username or password".data
  | .connectionError msg => "False, ".data ++ msg

/-- Source line 39: the report line printed for host `h`. -/
def reportLine (probe : List Char → ProbeOutcome) (h : List Char) : List Char :=
  h ++ ',' :: resultString (probe h)

/-- The run-loop state (source lines 29–30 plus the observable effects):
`seen` models the Python set (membership only), `failed` the counter,
`output` the printed report lines, `sleeps` the durations slept. -/
structure RunState where
  seen : List (List Char)
  failed : Nat
  output : List (List Char)
  sleeps : List Nat
deriving DecidableEq

/-- Initial state: `seen = set()`, `failed = 0` (source lines 29–30). -/
def initState : RunState := ⟨[], 0, [], []⟩

/-- One iteration of the source's `for line in file.readlines()` body
(lines 32–43), faithful to the source:
the guard `hname != "" and hname not in seen`; `seen.add(hname)`;
`login = test_login(...)`; the test `"False" in login` followed by the
assignment `failed =+ 1` (which sets `failed` to `+1`, i.e. `1`);
the print; and the cool-down branch `if failed > 2`. -/
def processLine (probe : List Char → ProbeOutcome) (st : RunState)
    (line : List Char) : RunState :=
  let hname := normalize line
  if hname ≠ [] ∧ hname ∉ st.seen then
    let seen' := hname :: st.seen
    let login := resultString (probe hname)
    let failed' := if containsSub "False".data login then 1 else st.failed
    let output' := st.output ++ [hname ++ ',' :: login]
    if failed' > 2 then
      { seen := seen', failed := 0, output := output', sleeps := st.sleeps ++ [30] }
    else
      { seen := seen', failed := failed', output := output', sleeps := st.sleeps }
  else st

/-- The whole run loop over the input lines. -/
def run (probe : List Char → ProbeOutcome) (lines : List (List Char)) : RunState :=
  lines.foldl (processLine probe) initState

/-! ## Model of `test_login` itself (source lines 7–28)

Exceptions during `client.connect` are external events; we model the three
relevant cases of the attempt.  `close()` may itself raise: `closeRaises i`
gives the exception message of the `i`-th `close()` call, if it raises.
The trace records the returned report string and how many times `close()`
was invoked. -/

/-- Outcome of the `client.connect(...)` call: success, a
`paramiko.AuthenticationException` (with its `str(e)` description), or any
other exception (with its `str(e)` description). -/
inductive ConnectResult where
  | ok
  | authExn (desc : List Char)
  | otherExn (desc : List Char)
deriving DecidableEq

/-- Observable trace of one `test_login` call. -/
structure ProbeTrace where
  result : List Char
  closeCalls : Nat
deriving DecidableEq

/-- `test_login` (source lines 7–28), traced.  Control flow of the source:
on successful connect, `client.close()` is called inside the `try`
(close call 0); if that raises, the exception is caught by the generic
`except Exception as e` handler and becomes the result `False, {e}`;
otherwise the result is `True`.  On `AuthenticationException` the result
is the fixed auth-failure text; on any other exception it is
`False, {str(e)}`.  The `finally` block always performs one further
`close()` whose own exception is swallowed by `except Exception: pass`. -/
def test_login (connect : ConnectResult)
    (closeRaises : Nat → Option (List Char)) : ProbeTrace :=
  match connect with
  | .ok =>
    match closeRaises 0 with
    | none => ⟨"True".data, 2⟩
    | some m => ⟨"False, ".data ++ m, 2⟩
  | .authExn _ => ⟨"False, Bad username or password".data, 1⟩
  | .otherExn d => ⟨"False, ".data ++ d, 1⟩

/-- The classification of a connect outcome as a `ProbeOutcome`. -/
def classify : ConnectResult → ProbeOutcome
  | .ok => .success
  | .authExn _ => .authFailure
  | .otherExn d => .connectionError d

/-- When `close()` never raises, the traced `test_login` returns exactly
the report string of the classified outcome. -/
theorem test_login_result_eq (c : ConnectResult) :
    (test_login c (fun _ => none)).result = resultString (classify c) := by
  cases c <;> rfl

/-! ## Specification-side definitions -/

/-- Strip a class of characters from both ends only. -/
def stripEdge (p : Char → Bool) (s : List Char) : List Char :=
  ((s.dropWhile p).reverse.dropWhile p).reverse

/-- Modelled from the spec: the normalization the spec's identity claim
describes — whitespace trimmed and only the SURROUNDING quote characters
stripped (interior quotes kept).  Used to compare the spec's claimed
identity with the source's `normalize`. -/
def specNormalize (line : List Char) : List Char :=
  stripEdge (fun c => c == '"') (strip line)

/-- First occurrences of each element not already in `seen`, in order. -/
def firstOccurrences (seen : List (List Char)) :
    List (List Char) → List (List Char)
  | [] => []
  | h :: t =>
    if h ∈ seen then firstOccurrences seen t
    else h :: firstOccurrences (h :: seen) t

/-! ## Helper lemmas -/

lemma processLine_empty (probe : List Char → ProbeOutcome) (st : RunState)
    (line : List Char) (h : normalize line = []) :
    processLine probe st line = st := by
  simp [processLine, h]

lemma processLine_seen (probe : List Char → ProbeOutcome) (st : RunState)
    (line : List Char) (h : normalize line ∈ st.seen) :
    processLine probe st line = st := by
  simp [processLine, h]

lemma processLine_emit (probe : List Char → ProbeOutcome) (st : RunState)
    (line : List Char) (h1 : normalize line ≠ [])
    (h2 : normalize line ∉ st.seen) :
    (processLine probe st line).output
        = st.output ++ [reportLine probe (normalize line)]
    ∧ (processLine probe st line).seen = normalize line :: st.seen := by
  simp only [processLine]
  rw [if_pos (And.intro h1 h2)]
  split_ifs <;> exact ⟨by simp [reportLine], rfl⟩

lemma processLine_failed (probe : List Char → ProbeOutcome) (st : RunState)
    (line : List Char) (h : st.failed ≤ 1) :
    (processLine probe st line).failed ≤ 1
    ∧ (processLine probe st line).sleeps = st.sleeps := by
  simp only [processLine]
  split_ifs
  all_goals simp_all
  all_goals omega

lemma foldl_failed (probe : List Char → ProbeOutcome) :
    ∀ (lines : List (List Char)) (st : RunState), st.failed ≤ 1 →
    (lines.foldl (processLine probe) st).failed ≤ 1
    ∧ (lines.foldl (processLine probe) st).sleeps = st.sleeps
  | [], _, h => ⟨h, rfl⟩
  | line :: rest, st, h => by
    have h1 := processLine_failed probe st line h
    have h2 := foldl_failed probe rest (processLine probe st line) h1.1
    exact ⟨h2.1, h2.2.trans h1.2⟩

lemma run_output_spec (probe : List Char → ProbeOutcome) :
    ∀ (lines : List (List Char)) (st : RunState),
    (lines.foldl (processLine probe) st).output
      = st.output ++ (firstOccurrences st.seen
          ((lines.map normalize).filter (fun h => h != []))).map (reportLine probe)
  | [], st => by simp [firstOccurrences]
  | line :: rest, st => by
    by_cases h0 : normalize line = []
    · have e : (normalize line != []) = false := by simp [h0]
      simp only [List.foldl_cons, List.map_cons, List.filter_cons, e,
        Bool.false_eq_true, if_false]
      rw [processLine_empty probe st line h0]
      exact run_output_spec probe rest st
    · have e : (normalize line != []) = true := by simpa using h0
      simp only [List.foldl_cons, List.map_cons, List.filter_cons, e, if_true]
      by_cases h1 : normalize line ∈ st.seen
      · rw [processLine_seen probe st line h1, run_output_spec probe rest st]
        simp [firstOccurrences, h1]
      · have hemit := processLine_emit probe st line h0 h1
        rw [run_output_spec probe rest (processLine probe st line),
          hemit.1, hemit.2]
        simp [firstOccurrences, h1]

lemma run_output_eq (probe : List Char → ProbeOutcome) (lines : List (List Char)) :
    (run probe lines).output
      = (firstOccurrences []
          ((lines.map normalize).filter (fun h => h != []))).map (reportLine probe) := by
  have h := run_output_spec probe lines initState
  simpa [run, initState] using h

lemma isPrefixL_append (pat rest : List Char) :
    isPrefixL pat (pat ++ rest) = true := by
  induction pat with
  | nil => rfl
  | cons a as ih => simp [isPrefixL, ih]

lemma containsSub_of_prefix (pat s : List Char) (h : isPrefixL pat s = true) :
    containsSub pat s = true := by
  cases s with
  | nil => simpa [containsSub] using h
  | cons a as => simp [containsSub, h]

/-! ## Claims -/

/-- C1: the claim says that on the 3rd consecutive failure the run blocks
for the cool-down (a 30-second sleep) and resets the counter to 0.  The
source's counter update is the assignment `failed =+ 1`; evaluating the
run loop on three lines whose probes all fail shows that no sleep ever
happens and the counter ends at 1, not 0 — the intended back-off never
triggers. -/
theorem c1_three_failures_no_cooldown :
    (run (fun _ => ProbeOutcome.authFailure) [['a'], ['b'], ['c']]).sleeps = []
    ∧ (run (fun _ => ProbeOutcome.authFailure) [['a'], ['b'], ['c']]).failed = 1 := by
  exact ⟨rfl, rfl⟩

/-- C2: in the literal source behavior, after processing any sequence of
input lines the failure counter holds 0 or 1, and the cool-down branch
(guarded by the counter exceeding 2) is never executed: no sleep is ever
performed. -/
theorem c2_counter_bounded (probe : List Char → ProbeOutcome)
    (lines : List (List Char)) :
    ((run probe lines).failed = 0 ∨ (run probe lines).failed = 1)
    ∧ (run probe lines).sleeps = [] := by
  have h := foldl_failed probe lines initState (by simp [initState])
  constructor
  · have h1 := h.1
    simp only [run]
    omega
  · simp only [run]
    rw [h.2]
    rfl

/-- C3: the run's output is exactly one report line per distinct non-empty
normalized hostname, at the position of its first occurrence, in input
order; later occurrences of the same normalized hostname are dropped
silently. -/
theorem c3_dedup_first_occurrence (probe : List Char → ProbeOutcome)
    (lines : List (List Char)) :
    (run probe lines).output
      = (firstOccurrences []
          ((lines.map normalize).filter (fun h => h != []))).map (reportLine probe) :=
  run_output_eq probe lines

/-- C4: successful authentication yields report text True; an
authentication-specific rejection yields exactly the fixed auth-failure
text; any other failure yields the False-comma prefix followed by the
underlying failure's description; and every emitted report line has the
form host-comma-outcome. -/
theorem c4_outcome_mapping (probe : List Char → ProbeOutcome)
    (lines : List (List Char)) (l : List Char)
    (hl : l ∈ (run probe lines).output) :
    (∃ h : List Char, l = h ++ ',' :: resultString (probe h))
    ∧ resultString .success = "True".data
    ∧ resultString .authFailure = "False, Bad username or password".data
    ∧ ∀ msg, resultString (.connectionError msg) = "False, ".data ++ msg := by
  refine ⟨?_, rfl, rfl, fun _ => rfl⟩
  rw [run_output_eq probe lines] at hl
  obtain ⟨h, _, rfl⟩ := List.mem_map.mp hl
  exact ⟨h, rfl⟩

theorem c4_witness :
    ("h,True".data ∈ (run (fun _ => ProbeOutcome.success) [['h']]).output)
    ∧ ((∃ h : List Char, "h,True".data = h ++ ',' :: resultString ProbeOutcome.success)
       ∧ resultString .success = "True".data
       ∧ resultString .authFailure = "False, Bad username or password".data
       ∧ ∀ msg, resultString (.connectionError msg) = "False, ".data ++ msg) :=
  ⟨by decide, c4_outcome_mapping (fun _ => ProbeOutcome.success) [['h']]
    "h,True".data (by decide)⟩

/-- C5 counterexample: the claim says only SURROUNDING quote characters
are stripped, so an interior quote is part of a target's identity.  The
source removes every quote character, so the two spellings below — whose
spec-side normalized forms differ — are deduplicated into a single
target producing a single report line. -/
theorem c5_counterexample :
    specNormalize "ho\"st".data ≠ specNormalize "host".data
    ∧ (run (fun _ => ProbeOutcome.success)
        ["ho\"st".data, "host".data]).output.length = 1 := by
  exact ⟨by decide, rfl⟩

/-- C5 amended: the identity used for deduplication is the line with
whitespace trimmed and ALL double-quote characters removed (interior ones
included); two non-empty-normalizing lines produce a single report line
iff their normalized forms are equal. -/
theorem c5_amended_identity (probe : List Char → ProbeOutcome)
    (l1 l2 : List Char) (h1 : normalize l1 ≠ []) (h2 : normalize l2 ≠ []) :
    ((run probe [l1, l2]).output.length = 1 ↔ normalize l1 = normalize l2) := by
  rw [run_output_eq]
  have e1 : (normalize l1 != []) = true := by simpa using h1
  have e2 : (normalize l2 != []) = true := by simpa using h2
  simp only [List.map_cons, List.map_nil, List.filter_cons, e1, e2, if_true,
    List.filter_nil]
  by_cases heq : normalize l2 = normalize l1
  · simp [firstOccurrences, heq]
  · simp [firstOccurrences, heq]
    exact fun h => (heq h.symm).elim

theorem c5_amended_witness :
    (normalize "a ".data ≠ [] ∧ normalize " \"a\"".data ≠ [])
    ∧ ((run (fun _ => ProbeOutcome.success)
          ["a ".data, " \"a\"".data]).output.length = 1
        ↔ normalize "a ".data = normalize " \"a\"".data) :=
  ⟨⟨by decide, by decide⟩,
    c5_amended_identity (fun _ => ProbeOutcome.success) "a ".data " \"a\"".data
      (by decide) (by decide)⟩

/-- C6 counterexample: the claim says EVERY exception raised while probing
is converted into a ConnectionError-classified result carrying the
exception's description.  An authentication exception (description
"Authentication failed.") instead yields the fixed auth-failure text, not
the False-comma prefix followed by that description. -/
theorem c6_counterexample :
    (test_login (.authExn "Authentication failed.".data) (fun _ => none)).result
      ≠ "False, ".data ++ "Authentication failed.".data := by
  decide

/-- C6 amended: every exception raised while probing is caught at the
probe boundary and yields a failure result (never propagating):
authentication-specific exceptions yield the fixed auth-failure text,
and every other exception yields the ConnectionError result carrying the
exception's description — regardless of how the cleanup close behaves. -/
theorem c6_amended_classification (d m : List Char)
    (closeRaises : Nat → Option (List Char)) :
    (test_login (.authExn d) closeRaises).result
        = "False, Bad username or password".data
    ∧ (test_login (.otherExn m) closeRaises).result = "False, ".data ++ m :=
  ⟨rfl, rfl⟩

/-- C7: a line that normalizes to the empty string is skipped entirely —
no report line, and the seen-set, failure counter, output and sleeps are
all left unchanged, whatever the probe oracle would answer. -/
theorem c7_empty_line_no_effect (probe : List Char → ProbeOutcome)
    (st : RunState) (line : List Char) (h : normalize line = []) :
    processLine probe st line = st :=
  processLine_empty probe st line h

theorem c7_witness :
    normalize "  ".data = []
    ∧ processLine (fun _ => ProbeOutcome.success) initState "  ".data = initState :=
  ⟨by decide,
    c7_empty_line_no_effect (fun _ => ProbeOutcome.success) initState "  ".data
      (by decide)⟩

/-- C8: a probe whose outcome is Success leaves the consecutive-failure
counter unchanged: appending such a line to any run does not alter the
counter (in particular a Success does not reset it to zero). -/
theorem c8_success_leaves_counter (probe : List Char → ProbeOutcome)
    (lines : List (List Char)) (line : List Char)
    (h : probe (normalize line) = ProbeOutcome.success) :
    (run probe (lines ++ [line])).failed = (run probe lines).failed := by
  have hst := foldl_failed probe lines initState (by simp [initState])
  simp only [run, List.foldl_append, List.foldl_cons, List.foldl_nil]
  set st := lines.foldl (processLine probe) initState with hstdef
  simp only [processLine, h]
  split_ifs with hg hcs hgt1 hgt2
  · omega
  · exact absurd hcs (by decide)
  · have h1 := hst.1
    omega
  · rfl
  · rfl

theorem c8_witness :
    ((fun _ => ProbeOutcome.success) (normalize ['b']) = ProbeOutcome.success)
    ∧ (run (fun _ => ProbeOutcome.success) ([['a']] ++ [['b']])).failed
        = (run (fun _ => ProbeOutcome.success) [['a']]).failed :=
  ⟨rfl, c8_success_leaves_counter (fun _ => ProbeOutcome.success) [['a']] ['b'] rfl⟩

/-- C9 counterexample: the claim says any exception raised by the close
itself is swallowed and never surfaces as the probe's result.  But the
success-path close sits inside the try block: when it raises, the generic
handler catches it and the probe returns a failure result instead of
True. -/
theorem c9_counterexample :
    (test_login .ok
        (fun n => if n == 0 then some "close failed".data else none)).result
      = "False, ".data ++ "close failed".data
    ∧ (test_login .ok
        (fun n => if n == 0 then some "close failed".data else none)).result
      ≠ "True".data := by
  exact ⟨rfl, by decide⟩

/-- C9 amended: close is invoked on every exit path — exactly once (in
the cleanup block) when the probe throws during connection or
authentication, and twice on the success path (once in the try, once in
the cleanup); exceptions from the cleanup close are always swallowed, so
on the throwing paths the result never depends on close behavior.
However, an exception from the success-path close inside the try block
surfaces as the probe's result (see the counterexample). -/
theorem c9_amended_close_behavior (d m : List Char)
    (closeRaises : Nat → Option (List Char)) :
    (test_login (.authExn d) closeRaises).closeCalls = 1
    ∧ (test_login (.otherExn m) closeRaises).closeCalls = 1
    ∧ (test_login .ok closeRaises).closeCalls = 2
    ∧ (test_login (.authExn d) closeRaises).result
        = "False, Bad username or password".data
    ∧ (test_login (.otherExn m) closeRaises).result = "False, ".data ++ m := by
  refine ⟨rfl, rfl, ?_, rfl, rfl⟩
  cases h : closeRaises 0 <;> simp [test_login, h]

/-- C10: the run loop's failure test — whether the substring False occurs
in the probe's result string — holds iff the probe did not succeed: the
success result is exactly True, and every failure result begins with the
False-comma prefix regardless of the exception message's content. -/
theorem c10_failure_test_iff (o : ProbeOutcome) (m : List Char) :
    (containsSub "False".data (resultString o) = true ↔ o ≠ ProbeOutcome.success)
    ∧ resultString .success = "True".data
    ∧ isPrefixL "False, ".data (resultString .authFailure) = true
    ∧ isPrefixL "False, ".data (resultString (.connectionError m)) = true := by
  refine ⟨?_, rfl, by decide, ?_⟩
  · cases o with
    | success => simp [resultString]; decide
    | authFailure => simp [resultString]; decide
    | connectionError msg =>
      have e : ("False, ".data : List Char) ++ msg
          = "False".data ++ (", ".data ++ msg) := by
        rw [← List.append_assoc]; rfl
      simp only [resultString, e]
      constructor
      · intro _ hcon
        exact ProbeOutcome.noConfusion hcon
      · intro _
        exact containsSub_of_prefix _ _ (isPrefixL_append _ _)
  · show isPrefixL "False, ".data ("False, ".data ++ m) = true
    exact isPrefixL_append _ _

end SshPasswordCheck
